import Mathlib

/-!
Verification of the AstrBot core against its specification.

Shallow embedding of the relevant Python modules:
  * `astrbot/core/star/star_handler.py`  (handler registry, priority heap)
  * `astrbot/core/pipeline/process_stage/method/llm_request.py`
  * `astrbot/core/pipeline/respond/stage.py`
  * `astrbot/core/conversation_mgr.py`

Python dicts of role-tagged history entries become the `Msg` structure,
Python lists become `List`, machine integers are unbounded (`Int`/`Nat`,
no overflow is relevant in the modelled code), exceptions become
`Except`/`Option` values, and the async generators of the pipeline are
modelled by explicit result records.
-/

namespace AstrBot

/-! ## Handler registry (`astrbot/core/star/star_handler.py`) -/

/-- Event types of `star_handler.EventType` (an `enum.Enum`). -/
inductive EventTypeM
  | onAstrBotLoadedEvent
  | adapterMessageEvent
  | onLLMRequestEvent
  | onLLMResponseEvent
  | onDecoratingResultEvent
  | onCallingFuncToolEvent
  | onAfterMessageSentEvent
deriving DecidableEq, Repr

/-- The fields of `star.StarMetadata` consulted by the registry:
`name`, `activated`, and the cached `supported_platforms` map
(platform id -> enabled flag).  The map is an association list, one
entry per platform id (Python `dict`). -/
structure StarMetadataM where
  name : String
  activated : Bool
  supported_platforms : List (String × Bool)
deriving Repr, DecidableEq

/-- `star.star_map`: module path -> plugin metadata (a Python dict,
modelled as an association list with at most one entry per key). -/
abbrev StarMapM := List (String × StarMetadataM)

/-- Python `dict.get(key)`: first binding of `key`, if any. -/
def dictGet (m : List (String × α)) (key : String) : Option α :=
  match m with
  | [] => none
  | (k, v) :: rest => if k = key then some v else dictGet rest key

/-- The fields of `StarHandlerMetadata` used by the registry.  The
`priority` field stands for `extras_configs["priority"]` after
`append` has defaulted it to 0; the callable is identified by
`handler_id`. -/
structure HandlerM where
  event_type : EventTypeM
  handler_module_path : String
  priority : Int
  handler_id : Nat
deriving Repr, DecidableEq

/-- Python comparison of the heap items `(-priority, handler)`:
lexicographic, where `StarHandlerMetadata.__lt__` compares the
priorities. -/
def heapItemLt (x y : Int × HandlerM) : Bool :=
  x.1 < y.1 || (x.1 == y.1 && x.2.priority < y.2.priority)

/-- Functional update of the `i`-th list element (out of range: no-op),
the effect of a Python list item assignment. -/
def listSet : List α → Nat → α → List α
  | [], _, _ => []
  | _ :: xs, 0, a => a :: xs
  | x :: xs, n + 1, a => x :: listSet xs n a

/-- `heapq._siftdown(heap, 0, pos)` with `newitem = heap[pos]`: walk
`pos` toward the root, moving down every parent larger than `newitem`,
and finally store `newitem` at the hole. -/
def siftdown (newitem : Int × HandlerM) (heap : List (Int × HandlerM)) (pos : Nat) :
    List (Int × HandlerM) :=
  match pos with
  | 0 => listSet heap 0 newitem
  | p + 1 =>
    let parentpos := p / 2
    match heap[parentpos]? with
    | none => listSet heap (p + 1) newitem
    | some parent =>
      if heapItemLt newitem parent then
        siftdown newitem (listSet heap (p + 1) parent) parentpos
      else
        listSet heap (p + 1) newitem
termination_by pos
decreasing_by simp_wf; omega

/-- `heapq.heappush(heap, item)`: append then sift down. -/
def heappush (heap : List (Int × HandlerM)) (item : Int × HandlerM) :
    List (Int × HandlerM) :=
  siftdown item (heap ++ [item]) heap.length

/-- `StarHandlerRegistry.append`: push `(-priority, handler)` onto the
heap list (`priority` already carries the defaulted value). -/
def registryAppend (handlers : List (Int × HandlerM)) (h : HandlerM) :
    List (Int × HandlerM) :=
  heappush handlers (-h.priority, h)

/-- `StarHandlerMetadata.is_enabled_for_platform`. -/
def is_enabled_for_platform (star_map : StarMapM) (h : HandlerM)
    (platform_id : String) : Bool :=
  match dictGet star_map h.handler_module_path with
  | none => true
  | some plugin =>
    if plugin.name = "" then true
    else if !plugin.activated then false
    else
      match dictGet plugin.supported_platforms platform_id with
      | some b => b
      | none => true

/-- `StarHandlerRegistry.get_handlers_by_event_type`: iterate the raw
heap list in storage order, keeping the handlers of the wanted event
type that pass the activation and platform filters.  `platform_id` is
an `Option`, and a present-but-empty string is falsy in Python. -/
def get_handlers_by_event_type (star_map : StarMapM)
    (handlers : List (Int × HandlerM)) (event_type : EventTypeM)
    (only_activated : Bool := true) (platform_id : Option String := none) :
    List HandlerM :=
  ((handlers.map (·.2)).filter fun h =>
    h.event_type == event_type
    && (!only_activated
        || (match dictGet star_map h.handler_module_path with
            | some plugin => plugin.activated
            | none => false))
    && (match platform_id with
        | some pid =>
          if pid ≠ "" && event_type ≠ .onAstrBotLoadedEvent then
            is_enabled_for_platform star_map h pid
          else true
        | none => true))

/-! ## History entries and tool-pair pruning
(`llm_request.py`, `_process_tool_message_pairs` and the context
acquisition of `LLMRequestSubStage.process`) -/

/-- A role-tagged history entry (a Python dict).  `tool_calls` models
the presence of the `"tool_calls"` key, `tool_call_history` the
presence of the `"_tool_call_history"` marker and `no_save` the
presence of the `"_no_save"` marker. -/
structure Msg where
  role : String := ""
  content : Option String := none
  tool_calls : Bool := false
  tool_call_id : Option String := none
  tool_call_history : Bool := false
  no_save : Bool := false
deriving Repr, DecidableEq

/-- `del msg["_tool_call_history"]` on a copy. -/
def Msg.stripHistoryTag (m : Msg) : Msg := { m with tool_call_history := false }

/-- `LLMRequestSubStage._process_tool_message_pairs(messages, remove_tags)`:
unmarked entries pass through; a marked assistant entry with
`tool_calls` is kept together with its run of immediately following
marked tool entries, but only when that run is non-empty; any other
marked entry is dropped.  With `remove_tags` the marker is removed
from the kept entries. -/
def processToolMessagePairs (removeTags : Bool) : List Msg → List Msg
  | [] => []
  | m :: rest =>
    if !m.tool_call_history then
      m :: processToolMessagePairs removeTags rest
    else if m.role == "assistant" && m.tool_calls then
      let isRelatedTool : Msg → Bool := fun t => t.role == "tool" && t.tool_call_history
      let tools := rest.takeWhile isRelatedTool
      let rest2 := rest.dropWhile isRelatedTool
      let tools2 := if removeTags then tools.map Msg.stripHistoryTag else tools
      let m2 := if removeTags then m.stripHistoryTag else m
      if !tools.isEmpty then m2 :: (tools2 ++ processToolMessagePairs removeTags rest2)
      else processToolMessagePairs removeTags rest2
    else
      processToolMessagePairs removeTags rest
termination_by l => l.length
decreasing_by
  all_goals simp_wf
  all_goals first
    | omega
    | exact Nat.lt_succ_of_le (List.IsSuffix.sublist (List.dropWhile_suffix _)).length_le

/-- The two context-acquisition paths of `LLMRequestSubStage.process`
(lines 67–112): either the event carries a pre-seeded provider request
(with or without a conversation), or the stage loads the current
dialogue itself. -/
inductive RequestEntry
  /-- `event.get_extra("provider_request")` present: `existingContexts`
  is `req.contexts` as pre-seeded, `conversationHistory` the parsed
  `req.conversation.history` when a conversation is attached. -/
  | preseeded (existingContexts : List Msg) (conversationHistory : Option (List Msg))
  /-- no pre-seeded request: the stage loads the current conversation
  and parses its history. -/
  | derived (conversationHistory : List Msg)

/-- What `req.contexts` holds after the entry branch of
`LLMRequestSubStage.process`: a pre-seeded request with a conversation
gets the sanitized history, one without keeps its contexts, and the
self-loaded path stores `json.loads(conversation.history)` as is. -/
def acquireRequestContexts : RequestEntry → List Msg
  | .preseeded existing none => existing
  | .preseeded _ (some hist) => processToolMessagePairs true hist
  | .derived hist => hist

/-! ## Context-window enforcement (`llm_request.py` lines 38–44, 142–154) -/

/-- `self.dequeue_context_length` as computed by
`LLMRequestSubStage.initialize`. -/
def dequeue_context_length (max_context_length dequeue_cfg : Int) : Int :=
  min (max 1 dequeue_cfg) (max_context_length - 1)

/-- Python slice `xs[s:]` for an arbitrary integer start. -/
def pySliceFrom (s : Int) (xs : List α) : List α :=
  if s < 0 then xs.drop (xs.length - (-s).toNat) else xs.drop s.toNat

/-- The `# max context length` block of `LLMRequestSubStage.process`:
when the configured limit is not `-1` and `len(contexts) // 2` exceeds
it, keep the last `(max_context_length - dequeue_context_length + 1) * 2`
entries and, when a `user` entry exists at a positive index, drop
everything before the first `user` entry. -/
def enforceContextWindow (max_context_length dequeue : Int) (contexts : List Msg) :
    List Msg :=
  if max_context_length ≠ -1 ∧ (contexts.length : Int) / 2 > max_context_length then
    let truncated := pySliceFrom (-((max_context_length - dequeue + 1) * 2)) contexts
    match truncated.findIdx? (fun m => m.role == "user") with
    | some index => if index > 0 then truncated.drop index else truncated
    | none => truncated
  else contexts

/-! ## Conversation manager (`astrbot/core/conversation_mgr.py`) -/

/-- A database call issued by the conversation manager (the database
itself is a collaborator behind `BaseDatabase`). -/
inductive DbOp
  | deleteConversation (user_id : String) (cid : String)
deriving Repr, DecidableEq

/-- Observable outcome of `ConversationManager.delete_conversation`:
the new session-to-dialogue map, the database calls issued, and
whether the map was flushed to the preference store. -/
structure DeleteConversationResult where
  session_conversations : List (String × String)
  db_ops : List DbOp
  sp_saved : Bool
deriving Repr, DecidableEq

/-- Python `del m[key]` on a dict (unique keys): drop the binding. -/
def dictDel (m : List (String × α)) (key : String) : List (String × α) :=
  m.filter (fun kv => kv.1 ≠ key)

/-- `ConversationManager.delete_conversation(unified_msg_origin,
conversation_id)`: the argument is immediately overwritten by
`session_conversations.get(unified_msg_origin)`; when the session has
a current dialogue it is deleted from the database and the mapping,
otherwise nothing happens. -/
def delete_conversation (session_conversations : List (String × String))
    (unified_msg_origin : String) (conversation_id : Option String) :
    DeleteConversationResult :=
  let _ := conversation_id
  match dictGet session_conversations unified_msg_origin with
  | some cid =>
    { session_conversations := dictDel session_conversations unified_msg_origin
      db_ops := [.deleteConversation unified_msg_origin cid]
      sp_saved := true }
  | none =>
    { session_conversations := session_conversations
      db_ops := []
      sp_saved := false }

/-! ## Message components and the respond stage
(`astrbot/core/pipeline/respond/stage.py`,
`astrbot/core/message/message_event_result.py`) -/

/-- Message components.  Modelled from the spec: the component classes
of `astrbot/core/message/components.py` are absent from the sources,
so the variants and their fields are reconstructed from the spec
(§3, "typed message components ... each variant has a non-empty
predicate") and from the fields the respond stage's
`_component_validators` table reads.  Optional fields whose emptiness
is tested with `is not None` are `Option`s, text-like fields are
strings, numeric ids tested against `0` are integers. -/
inductive Component
  | plain (text : String)
  | face (id : Option Int)
  | record (file : String)
  | video (file : String)
  | at (qq : String) (name : String)
  | atAll
  | rps
  | dice
  | shake
  | anonymous
  | share (url : String) (title : String)
  | contact
  | location (lat : String) (lon : String)
  | music (_type : String) (url : String) (audio : String)
  | image (file : String)
  | reply (id : String) (sender_id : Option String)
  | redBag (title : String)
  | poke (id : Int) (qq : Int)
  | forward (id : String)
  | node (name : String) (uin : Int) (content : List Component)
  | nodes (nodes : List Component)
  | xml (data : String)
  | jsonData (data : String)
  | cardImage (file : String)
  | tts (text : String)
  | unknown (text : String)
  | file (file : String)
  | wechatEmoji (md5 : String)

/-- The per-variant non-empty predicates: the
`RespondStage._component_validators` table, one case per entry.
Python truthiness of a string is `≠ ""`; `bool(x and y)` of strings is
the conjunction of both truthinesses. -/
def componentNonEmpty : Component → Bool
  | .plain text => text != "" && text.trim != ""
  | .face id => id.isSome
  | .record file => file != ""
  | .video file => file != ""
  | .at qq name => qq != "" || name != ""
  | .atAll => true
  | .rps => true
  | .dice => true
  | .shake => true
  | .anonymous => true
  | .share url title => url != "" && title != ""
  | .contact => true
  | .location lat lon => lat != "" && lon != ""
  | .music t url audio => t != "" && url != "" && audio != ""
  | .image file => file != ""
  | .reply id sender_id => id != "" && sender_id.isSome
  | .redBag title => title != ""
  | .poke id qq => id != 0 && qq != 0
  | .forward id => id != "" && id.trim != ""
  | .node name uin content => name != "" && uin != 0 && !content.isEmpty
  | .nodes ns => !ns.isEmpty
  | .xml data => data != "" && data.trim != ""
  | .jsonData data => data != ""
  | .cardImage file => file != ""
  | .tts text => text != "" && text.trim != ""
  | .unknown text => text != "" && text.trim != ""
  | .file file => file != ""
  | .wechatEmoji md5 => md5 != ""

/-- `RespondStage._is_empty_message_chain`: an empty list is empty; a
non-empty list is empty when no component passes its validator. -/
def isEmptyMessageChain (chain : List Component) : Bool :=
  if chain.isEmpty then true
  else !(chain.any componentNonEmpty)

/-- `ResultContentType` of `message_event_result.py`. -/
inductive ResultContentTypeM
  | llmResult
  | generalResult
  | streamingResult
  | streamingFinish
deriving Repr, DecidableEq

/-- The fields of `MessageEventResult` the respond stage reads. -/
structure MessageEventResultM where
  chain : List Component
  result_content_type : ResultContentTypeM := .generalResult

/-- `RespondStage` configuration, from `initialize`. -/
structure RespondConfig where
  path_mapping : List String := []
  reply_with_mention : Bool := false
  reply_with_quote : Bool := false
  enable_seg : Bool := false
  only_llm_result : Bool := false

/-- Collaborator behaviour during one `RespondStage.process` run:
`pathMap` abstracts `path_util.path_Mapping` (which consults the
filesystem), `sendFails` tells whether the n-th `event.send` of the
run raises, and `afterHookStops` whether an `on_after_message_sent`
handler stops the event. -/
structure RespondEnv where
  pathMap : String → String
  sendFails : Nat → Bool
  afterHookStops : Bool

/-- Observable outcome of one `RespondStage.process` run: the chains
actually delivered through `event.send`, whether the streaming path
was taken, whether the result was cleared, and whether event
propagation was stopped. -/
structure RespondOutput where
  sends : List (List Component)
  streaming_send : Bool
  cleared : Bool
  stopped : Bool

/-- The path-mapping step (`stage.py` lines 159–164): file components
with a truthy path get their path rewritten. -/
def pathMapComp (env : RespondEnv) : Component → Component
  | .file f => if f != "" then .file (env.pathMap f) else .file f
  | c => c

/-- isinstance check for `Comp.At`. -/
def isAt : Component → Bool
  | .at _ _ => true
  | _ => false

/-- isinstance check for `Comp.Reply`. -/
def isReply : Component → Bool
  | .reply _ _ => true
  | _ => false

/-- `list.remove` of the first element satisfying `p` (the element the
extraction loop breaks on). -/
def removeFirst (p : α → Bool) : List α → List α
  | [] => []
  | x :: xs => if p x then xs else x :: removeFirst p xs

/-- The decoration-extraction block (`stage.py` lines 182–194):
collect the first at-mention (when `reply_with_mention`), then the
first reply-quote (when `reply_with_quote`), removing each from the
chain. -/
def extractDecorations (cfg : RespondConfig) (chain : List Component) :
    List Component × List Component :=
  let (dec1, chain1) :=
    if cfg.reply_with_mention then
      match chain.find? isAt with
      | some c => ([c], removeFirst isAt chain)
      | none => ([], chain)
    else ([], chain)
  let (dec2, chain2) :=
    if cfg.reply_with_quote then
      match chain1.find? isReply with
      | some c => ([c], removeFirst isReply chain1)
      | none => ([], chain1)
    else ([], chain1)
  (dec1 ++ dec2, chain2)

/-- The segmented-send loop (`stage.py` lines 196–203): one send per
remaining component, each prefixed with the extracted decorations; a
raising send breaks the loop. -/
def segmentedSends (env : RespondEnv) (decorated : List Component) :
    List Component → Nat → List (List Component)
  | [], _ => []
  | c :: cs, n =>
    if env.sendFails n then []
    else (decorated ++ [c]) :: segmentedSends env decorated cs (n + 1)

/-- The trailing `on_after_message_sent` block and final
`event.clear_result()` (`stage.py` lines 215–233): a stopping handler
returns before the clear. -/
def afterSendBlock (env : RespondEnv) (sends : List (List Component)) : RespondOutput :=
  if env.afterHookStops then ⟨sends, false, false, true⟩
  else ⟨sends, false, true, false⟩

/-- `RespondStage.process`. -/
def respondProcess (cfg : RespondConfig) (env : RespondEnv)
    (result : Option MessageEventResultM) : RespondOutput :=
  match result with
  | none => ⟨[], false, false, false⟩
  | some r =>
    if r.result_content_type == .streamingFinish then ⟨[], false, false, false⟩
    else if r.result_content_type == .streamingResult then ⟨[], true, false, false⟩
    else if r.chain.length > 0 then
      let chain1 :=
        if !cfg.path_mapping.isEmpty then r.chain.map (pathMapComp env) else r.chain
      if isEmptyMessageChain chain1 then ⟨[], false, true, true⟩
      else
        let sends :=
          if cfg.enable_seg
              && ((cfg.only_llm_result && (r.result_content_type == .llmResult))
                  || !cfg.only_llm_result) then
            let (decorated, chain2) := extractDecorations cfg chain1
            segmentedSends env decorated chain2 0
          else
            if env.sendFails 0 then [] else [chain1]
        afterSendBlock env sends
    else afterSendBlock env []

/-! ## Tool-call round-trip (`llm_request.py`, `_handle_function_tools`) -/

/-- The fields of `FuncTool` read by `_handle_function_tools`.
`origin` is the Python string tag (`"mcp"` selects the remote branch). -/
structure FuncToolM where
  name : String
  origin : String
  mcp_server_name : String := ""
  handler_module_path : String := ""
deriving Repr, DecidableEq

/-- A `ToolCallMessageSegment` with `role="tool"`. -/
structure ToolEntry where
  tool_call_id : String
  content : String
deriving Repr, DecidableEq

/-- Observed behaviour of driving one wrapped local handler:
the values it produces (`some` = a returned scalar appended as a tool
entry, `none` = a generator yield with no return value) and an
exception raised after them, if any. -/
structure HandlerRunM where
  outputs : List (Option String) := []
  error : Option String := none

/-- Collaborators of the round-trip: the tool lookup
(`req.func_tool.get_func`), the plugin map, the event platform id,
the local handler behaviour and the remote (`mcp`) call behaviour
(`Except` = the call raised). -/
structure ToolEnv where
  get_func : String → Option FuncToolM
  star_map : StarMapM
  platform_id : String
  run_handler : String → String → HandlerRunM
  mcp_call : String → String → Except String (Option String)

/-- The message of the `AttributeError` Python raises when
`get_func` returned `None` and `.origin` is read (rendered here
without its quote characters). -/
def noneOriginMsg : String := "NoneType object has no attribute origin"

/-- The platform-disable test of `_handle_function_tools`
(lines 389–394): the owning plugin exists in `star_map`, lists the
platform in `supported_platforms`, and maps it to `False`. -/
def platformDisabled (env : ToolEnv) (ft : FuncToolM) : Bool :=
  match dictGet env.star_map ft.handler_module_path with
  | some md => dictGet md.supported_platforms env.platform_id == some false
  | none => false

/-- One iteration of the round-trip loop for the call
`(name, args, id)`: the tool entries it contributes and whether the
local handler was actually invoked.  The whole body sits in a
`try/except` that turns any exception into an `"error: <msg>"` tool
entry. -/
def toolCallStep (env : ToolEnv) (name args id : String) : List ToolEntry × Bool :=
  match env.get_func name with
  | none => ([⟨id, "error: " ++ noneOriginMsg⟩], false)
  | some ft =>
    if ft.origin == "mcp" then
      match env.mcp_call ft.mcp_server_name args with
      | .error m => ([⟨id, "error: " ++ m⟩], false)
      | .ok (some text) => ([⟨id, text⟩], false)
      | .ok none => ([], false)
    else
      if platformDisabled env ft then ([], false)
      else
        let run := env.run_handler ft.name args
        (run.outputs.filterMap (fun o => o.map (ToolEntry.mk id))
          ++ (match run.error with
              | some m => [⟨id, "error: " ++ m⟩]
              | none => []),
         true)

/-- The round-trip loop over
`zip(tools_call_name, tools_call_args, tools_call_ids)`. -/
def handleFunctionToolsSteps (env : ToolEnv) (names args ids : List String) :
    List (List ToolEntry × Bool) :=
  (names.zip (args.zip ids)).map fun t => toolCallStep env t.1 t.2.1 t.2.2

/-- What `_handle_function_tools` does after the loop. -/
inductive RoundTripOutcome
  /-- some tool entries were collected: `req.tool_calls_result` is set,
  `req.func_tool` cleared, and the request is yielded for another LLM
  loop iteration. -/
  | newRequest (tool_calls_result : List ToolEntry)
  /-- no entries, but the response carried completion text: it becomes
  the event result. -/
  | finalText (text : String)
  | noAction
deriving Repr, DecidableEq

/-- `_handle_function_tools`: run every call, then dispatch on the
collected entries. -/
def handleFunctionTools (env : ToolEnv) (names args ids : List String)
    (completion_text : String) : RoundTripOutcome :=
  let entries := ((handleFunctionToolsSteps env names args ids).map (·.1)).flatten
  if !entries.isEmpty then .newRequest entries
  else if completion_text != "" then .finalText completion_text
  else .noAction

/-! ## The LLM request loop (`llm_request.py`, `process.requesting` and
`_save_to_history`) -/

/-- A raised Python exception: its type name and message. -/
structure PyError where
  type_name : String
  msg : String
deriving Repr, DecidableEq

/-- The fields of `LLMResponse` the stage reads. -/
structure LLMResponseM where
  role : String := "assistant"
  completion_text : String := ""
  result_chain : Option (List Component) := none
  tools_call_name : List String := []
  tools_call_args : List String := []
  tools_call_ids : List String := []
  is_chunk : Bool := false

/-- The fields of `ProviderRequest` the loop and the history write
read.  `conversation` tells whether `req.conversation` is set;
`tool_calls_result` carries the entries of the latest round-trip. -/
structure ReqM where
  prompt : String := ""
  contexts : List Msg := []
  conversation : Bool := false
  tool_calls_result : Option (List ToolEntry) := none

/-- Behaviour of one `on_llm_response` handler: a raised exception is
caught and logged in place, and the stop flag is checked after each
handler. -/
structure HookRunM where
  raises : Bool := false
  stops : Bool := false

/-- Collaborators of one `requesting` run, indexed by loop iteration
where the provider is consulted repeatedly. -/
structure RequestingEnv where
  streaming : Bool
  text_chat : Nat → Except PyError LLMResponseM
  text_chat_stream : Nat → Except PyError (List LLMResponseM)
  on_llm_response_hooks : Nat → List HookRunM
  tool_env : ToolEnv
  save_raises : Option PyError

/-- How the `while need_loop` loop ended (when it did). -/
inductive LoopExitM
  /-- an `on_llm_response` handler stopped the event: `requesting`
  returns with the current result and nothing saved. -/
  | stopped (result : Option MessageEventResultM)
  /-- the loop fell through: the final non-chunk response, the current
  event result and the final request. -/
  | finished (finalResp : LLMResponseM) (result : Option MessageEventResultM) (req : ReqM)

/-- `MessageEventResult().message(text)`. -/
def plainResult (text : String) : MessageEventResultM :=
  { chain := [.plain text], result_content_type := .generalResult }

/-- The `while need_loop` loop of `requesting`: one iteration calls
the provider (streaming or not), runs the `on_llm_response` hooks and
dispatches on the response role; a tool round-trip that yields a new
request loops again.  `fuel` bounds the number of iterations modelled;
`.ok none` means the bound was reached with the Python loop still
running (no Python behaviour corresponds to it). -/
def requestingLoop (env : RequestingEnv) (req : ReqM)
    (result : Option MessageEventResultM) (iter : Nat) :
    Nat → Except PyError (Option LoopExitM)
  | 0 => .ok none
  | fuel + 1 => do
    let finalOpt ←
      if env.streaming then do
        let chunks ← env.text_chat_stream iter
        pure ((chunks.filter (fun c => !c.is_chunk)).getLast?)
      else do
        let resp ← env.text_chat iter
        pure (some resp)
    match finalOpt with
    | none => .error ⟨"Exception", "LLM response is None."⟩
    | some final =>
      if ((env.on_llm_response_hooks iter).any (·.stops)) then
        .ok (some (.stopped result))
      else
        if final.role == "assistant" then
          let chain := match final.result_chain with
            | some ch => ch
            | none => [.plain final.completion_text]
          let rct : ResultContentTypeM :=
            if env.streaming then .streamingFinish else .llmResult
          .ok (some (.finished final (some { chain := chain, result_content_type := rct }) req))
        else if final.role == "err" then
          .ok (some (.finished final
            (some (plainResult ("AstrBot 请求失败。\n错误信息: " ++ final.completion_text)))
            req))
        else if final.role == "tool" then
          match handleFunctionTools env.tool_env final.tools_call_name
              final.tools_call_args final.tools_call_ids final.completion_text with
          | .newRequest entries =>
            requestingLoop env { req with tool_calls_result := some entries } result
              (iter + 1) fuel
          | .finalText t =>
            .ok (some (.finished final (some (plainResult t)) req))
          | .noAction => .ok (some (.finished final result req))
        else
          .ok (some (.finished final result req))

/-- `ProviderRequest.assemble_context`.  Modelled from the spec: the
provider entities module is absent from the sources; per §4.4.5 the
user request becomes a `user` history entry carrying the prompt. -/
def assembleContext (req : ReqM) : Msg :=
  { role := "user", content := some req.prompt }

/-- `ToolCallsResult.to_openai_messages`.  Modelled from the spec: the
provider entities module is absent from the sources; per §3/§4.4.5 the
round-trip becomes the assistant entry carrying `tool_calls` followed
by one `tool` entry per call. -/
def toolCallsResultMessages (entries : List ToolEntry) : List Msg :=
  { role := "assistant", tool_calls := true }
    :: entries.map fun e =>
        { role := "tool", tool_call_id := some e.tool_call_id, content := some e.content }

/-- The history list `_save_to_history` persists for an `assistant`
final response: prior contexts, the user entry, the tagged and paired
tool-call messages, the final assistant entry, with `_no_save` entries
stripped. -/
def saveComposedHistory (req : ReqM) (completion_text : String) : List Msg :=
  let contexts := req.contexts ++ [assembleContext req]
  let contexts :=
    match req.tool_calls_result with
    | some entries =>
      contexts
        ++ processToolMessagePairs false
            ((toolCallsResultMessages entries).map fun m =>
              { m with tool_call_history := true })
    | none => contexts
  let contexts := contexts ++ [{ role := "assistant", content := some completion_text }]
  contexts.filter fun m => !m.no_save

/-- `_save_to_history`: writes (the returned history) only when a
conversation is attached and the final response has role `assistant`;
`env.save_raises` models the database write raising. -/
def saveToHistoryE (env : RequestingEnv) (req : ReqM) (final : LLMResponseM) :
    Except PyError (Option (List Msg)) :=
  if !req.conversation then .ok none
  else if final.role == "assistant" then
    match env.save_raises with
    | some e => .error e
    | none => .ok (some (saveComposedHistory req final.completion_text))
  else .ok none

/-- How the body of `requesting` (the part inside its `try`) ended. -/
inductive BodyOkM
  | stopped (result : Option MessageEventResultM)
  | completed (finalResp : LLMResponseM) (result : Option MessageEventResultM)
      (saved : Option (List Msg))

/-- The `try` body of `requesting`: the loop, then the history write. -/
def requestingBody (env : RequestingEnv) (req : ReqM)
    (result : Option MessageEventResultM) (fuel : Nat) :
    Except PyError (Option BodyOkM) :=
  match requestingLoop env req result 0 fuel with
  | .error e => .error e
  | .ok none => .ok none
  | .ok (some (.stopped r)) => .ok (some (.stopped r))
  | .ok (some (.finished final r req2)) =>
    match saveToHistoryE env req2 final with
    | .error e => .error e
    | .ok saved => .ok (some (.completed final r saved))

/-- Observable outcome of `requesting`: the event result it leaves and
the history written to the conversation store, if any. -/
structure RequestingOutcome where
  result : Option MessageEventResultM
  savedHistory : Option (List Msg)

/-- `requesting`, `except BaseException` included: any exception
escaping the body is logged and turned into the plain-text failure
result; nothing propagates.  (The fuel-exhausted case returns the
incoming result unchanged and corresponds to no finished Python run.) -/
def requesting (env : RequestingEnv) (req : ReqM)
    (result : Option MessageEventResultM) (fuel : Nat) : RequestingOutcome :=
  match requestingBody env req result fuel with
  | .error e =>
    { result := some (plainResult
        ("AstrBot 请求失败。\n错误类型: " ++ e.type_name ++ "\n错误信息: " ++ e.msg))
      savedHistory := none }
  | .ok none => { result := result, savedHistory := none }
  | .ok (some (.stopped r)) => { result := r, savedHistory := none }
  | .ok (some (.completed _ r saved)) => { result := r, savedHistory := saved }

/-! ## Concrete instances used by the claim theorems and witnesses -/

/-- A star map with one activated plugin at module path `p` and no
platform restrictions. -/
def sampleStarMap : StarMapM := [("p", ⟨"plug", true, []⟩)]

/-- Three handlers of the same event type appended with priorities
0, 5, 3 (in that order). -/
def sampleRegistry : List (Int × HandlerM) :=
  registryAppend (registryAppend (registryAppend []
    ⟨.onLLMRequestEvent, "p", 0, 0⟩) ⟨.onLLMRequestEvent, "p", 5, 1⟩)
    ⟨.onLLMRequestEvent, "p", 3, 2⟩

/-- A stored history consisting of one bare `tool` entry carrying the
`_tool_call_history` marker. -/
def bareToolMsg : Msg :=
  { role := "tool", content := some "x", tool_call_id := some "t1",
    tool_call_history := true }

/-- A six-entry dialogue history (roles system, user, assistant, user,
assistant, user). -/
def sampleSixCtxs : List Msg :=
  [{ role := "system", content := some "s" },
   { role := "user", content := some "u1" },
   { role := "assistant", content := some "a1" },
   { role := "user", content := some "u2" },
   { role := "assistant", content := some "a2" },
   { role := "user", content := some "u3" }]

/-- Tool `a`: local, owned by plugin module `pa`. -/
def sampleToolA : FuncToolM :=
  { name := "a", origin := "function", handler_module_path := "pa" }

/-- Tool `b`: local, owned by plugin module `pb` (not in the star map). -/
def sampleToolB : FuncToolM :=
  { name := "b", origin := "function", handler_module_path := "pb" }

/-- Tool `c`: local, owned by plugin module `pb`, whose handler raises. -/
def sampleToolC : FuncToolM :=
  { name := "c", origin := "function", handler_module_path := "pb" }

/-- Plugin `pa`: activated but explicitly disabled on platform `qq`. -/
def samplePluginA : StarMetadataM :=
  { name := "plugA", activated := true, supported_platforms := [("qq", false)] }

/-- Plugin `pb`: activated, with no entry in the platform-enable map. -/
def samplePluginB : StarMetadataM :=
  { name := "plugB", activated := true, supported_platforms := [] }

/-- A round-trip environment on platform `qq`: tool `a` is disabled
there, tool `b` runs and returns `"ok"`, tool `c` raises `boom`. -/
def sampleToolEnv : ToolEnv :=
  { get_func := fun n =>
      if n = "a" then some sampleToolA
      else if n = "b" then some sampleToolB
      else if n = "c" then some sampleToolC
      else none
    star_map := [("pa", samplePluginA), ("pb", samplePluginB)]
    platform_id := "qq"
    run_handler := fun n _ =>
      if n = "b" then { outputs := [some "ok"] }
      else if n = "c" then { outputs := [], error := some "boom" }
      else {}
    mcp_call := fun _ _ => .ok none }

/-- A respond-stage configuration with only segmented reply enabled. -/
def segOnlyCfg : RespondConfig := { enable_seg := true }

/-- Segmented reply with mention and quote decoration enabled. -/
def segDecorCfg : RespondConfig :=
  { enable_seg := true, reply_with_mention := true, reply_with_quote := true }

/-- A respond environment where every send succeeds and no hook stops. -/
def plainRespondEnv : RespondEnv :=
  { pathMap := fun s => s, sendFails := fun _ => false, afterHookStops := false }

/-- A chain carrying an at-mention, a reply-quote and one plain text. -/
def atReplyTextChain : List Component :=
  [.at "10001" "", .reply "5" (some "9"), .plain "hi"]

/-- A chain carrying an at-mention, a reply-quote and two plain texts. -/
def atReplyTwoTextChain : List Component :=
  [.at "10001" "", .reply "5" (some "9"), .plain "hi", .plain "yo"]

/-- A requesting environment whose provider call raises `ValueError`. -/
def raisingReqEnv : RequestingEnv :=
  { streaming := false
    text_chat := fun _ => .error ⟨"ValueError", "boom"⟩
    text_chat_stream := fun _ => .ok []
    on_llm_response_hooks := fun _ => []
    tool_env := sampleToolEnv
    save_raises := none }

/-- A requesting environment whose provider returns a `role="err"`
response. -/
def errRespEnv : RequestingEnv :=
  { streaming := false
    text_chat := fun _ => .ok { role := "err", completion_text := "bad" }
    text_chat_stream := fun _ => .ok []
    on_llm_response_hooks := fun _ => []
    tool_env := sampleToolEnv
    save_raises := none }

/-- The `role="err"` response of `errRespEnv`. -/
def errResp : LLMResponseM := { role := "err", completion_text := "bad" }

/-- A request with an attached conversation. -/
def convReq : ReqM := { prompt := "hi", conversation := true }

/-! ## Helper lemmas -/

/-- The `index = first user index; drop when positive` step equals
dropping the longest prefix without a matching entry, whenever a
matching entry exists. -/
lemma advance_to_first_match (pr : Msg → Bool) (l : List Msg) (h : l.any pr = true) :
    (match l.findIdx? pr with
     | some index => if index > 0 then l.drop index else l
     | none => l) = l.dropWhile (fun m => !pr m) := by
  induction l with
  | nil => simp at h
  | cons a t ih =>
    by_cases hp : pr a = true
    · simp [List.findIdx?_cons, hp, List.dropWhile_cons]
    · have hpf : pr a = false := by simpa using hp
      have ht : t.any pr = true := by simpa [List.any_cons, hpf] using h
      have hs : (t.findIdx? pr).isSome := by rw [List.findIdx?_isSome]; exact ht
      obtain ⟨j, hj⟩ := Option.isSome_iff_exists.mp hs
      have ih2 := ih ht
      rw [hj] at ih2
      dsimp only at ih2
      rcases Nat.eq_zero_or_pos j with h0 | hpos
      · subst h0
        rw [if_neg (by omega)] at ih2
        simp [List.findIdx?_cons, hpf, hj, List.dropWhile_cons]
        exact ih2
      · rw [if_pos hpos] at ih2
        simp [List.findIdx?_cons, hpf, hj, List.dropWhile_cons]
        exact ih2

/-- `_save_to_history` writes nothing unless the final response has
role `assistant`. -/
lemma saveToHistoryE_not_assistant (env : RequestingEnv) (req : ReqM)
    (final : LLMResponseM) (hrole : (final.role == "assistant") = false) :
    saveToHistoryE env req final = .ok none := by
  unfold saveToHistoryE
  split
  · rfl
  · rw [if_neg (by simp [hrole])]

/-- Path mapping leaves a component that fails its non-empty predicate
unchanged. -/
lemma pathMapComp_of_empty (env : RespondEnv) (c : Component)
    (h : componentNonEmpty c = false) : pathMapComp env c = c := by
  cases c <;> simp_all [pathMapComp, componentNonEmpty]

/-- The trailing hook block never changes the list of delivered sends. -/
lemma afterSendBlock_sends (env : RespondEnv) (s : List (List Component)) :
    (afterSendBlock env s).sends = s := by
  rw [afterSendBlock]; split <;> rfl

/-- When no send raises, the segmented loop delivers one message per
component, each prefixed by the decorations. -/
lemma segmentedSends_all_ok (env : RespondEnv) (dec : List Component)
    (l : List Component) (n : Nat) (h : ∀ k, env.sendFails k = false) :
    segmentedSends env dec l n = l.map (fun c => dec ++ [c]) := by
  induction l generalizing n with
  | nil => rfl
  | cons c cs ih => rw [segmentedSends, h n, ih (n + 1)]; rfl

/-! ## Claim theorems -/

/-- Claim C1.  The claim asserts that `get_handlers_by_event_type`
returns matching handlers in descending priority order.  It does not:
`append` pushes `(-priority, handler)` onto a binary heap, but the
getter iterates the raw heap array, which is only heap-ordered.  With
priorities 0, 5, 3 appended in that order the getter returns
priorities `[5, 0, 3]`: the priority-0 handler precedes (and so would
run before) the priority-3 handler. -/
theorem c1_get_handlers_not_priority_sorted :
    (get_handlers_by_event_type sampleStarMap sampleRegistry .onLLMRequestEvent).map
        (·.priority) = [5, 0, 3]
    ∧ ¬ ((get_handlers_by_event_type sampleStarMap sampleRegistry
          .onLLMRequestEvent).map (·.priority)).Sorted (· ≥ ·) := by
  have key : (get_handlers_by_event_type sampleStarMap sampleRegistry
      .onLLMRequestEvent).map (·.priority) = [5, 0, 3] := by
    simp [sampleStarMap, sampleRegistry, registryAppend, heappush, siftdown, listSet,
      get_handlers_by_event_type, dictGet, heapItemLt, is_enabled_for_platform]
  exact ⟨key, by rw [key]; decide⟩

/-- Claim C2.  The claim asserts that the tool-pair rule is applied on
both history-read paths.  Only the pre-seeded-request path applies it:
the self-load path stores the parsed history unchanged, so a bare
marked tool entry (which the rule deletes, as the pre-seeded path
shows) survives there together with its `_tool_call_history` marker. -/
theorem c2_derived_history_load_skips_tool_pair_rule :
    acquireRequestContexts (.derived [bareToolMsg]) = [bareToolMsg]
    ∧ processToolMessagePairs true [bareToolMsg] = []
    ∧ acquireRequestContexts (.preseeded [] (some [bareToolMsg])) = [] := by
  refine ⟨rfl, ?_, ?_⟩
  · simp [processToolMessagePairs, bareToolMsg]
  · simp [acquireRequestContexts, processToolMessagePairs, bareToolMsg]

/-- Claim C3.  With `max_context_length > 0`: when `len(contexts) // 2`
exceeds it, the contexts are cut to the last
`(max_context_length - dequeue_context_length + 1) * 2` entries and
advanced to the first `user` entry (when one exists in the kept
suffix); when the limit is not exceeded the contexts are unchanged. -/
theorem c3_context_window_enforcement (maxLen dequeue_cfg : Int) (ctxs : List Msg)
    (hmax : 0 < maxLen) :
    (((ctxs.length : Int) / 2 > maxLen →
      (ctxs.drop (ctxs.length
          - ((maxLen - dequeue_context_length maxLen dequeue_cfg + 1) * 2).toNat)).any
          (fun m => m.role == "user") = true →
      enforceContextWindow maxLen (dequeue_context_length maxLen dequeue_cfg) ctxs
        = (ctxs.drop (ctxs.length
            - ((maxLen - dequeue_context_length maxLen dequeue_cfg + 1) * 2).toNat)).dropWhile
            (fun m => !(m.role == "user"))))
    ∧ (¬ ((ctxs.length : Int) / 2 > maxLen) →
        enforceContextWindow maxLen (dequeue_context_length maxLen dequeue_cfg) ctxs
          = ctxs) := by
  constructor
  · intro hgt huser
    have hne : maxLen ≠ -1 := by omega
    rw [enforceContextWindow, if_pos ⟨hne, hgt⟩]
    have hslice : pySliceFrom
        (-((maxLen - dequeue_context_length maxLen dequeue_cfg + 1) * 2)) ctxs
        = ctxs.drop (ctxs.length
            - ((maxLen - dequeue_context_length maxLen dequeue_cfg + 1) * 2).toNat) := by
      have hdeq : dequeue_context_length maxLen dequeue_cfg ≤ maxLen - 1 :=
        min_le_right _ _
      rw [pySliceFrom, if_pos (by omega), neg_neg]
    rw [hslice]
    exact advance_to_first_match _ _ huser
  · intro hle
    rw [enforceContextWindow, if_neg (by tauto)]

/-- Witness for C3: limit 1, configured dequeue 1 (clamped to 0), a
six-entry history: the last 4 entries are kept and advanced to the
first user turn. -/
theorem c3_context_window_enforcement_witness :
    ((sampleSixCtxs.length : Int) / 2 > 1)
    ∧ enforceContextWindow 1 (dequeue_context_length 1 1) sampleSixCtxs
      = [{ role := "user", content := some "u2" },
         { role := "assistant", content := some "a2" },
         { role := "user", content := some "u3" }] := by
  refine ⟨by norm_num [sampleSixCtxs], ?_⟩
  have h := (c3_context_window_enforcement 1 1 sampleSixCtxs (by norm_num)).1
    (by norm_num [sampleSixCtxs]) (by decide)
  rw [h]
  rfl

/-- Claim C4.  In the tool round-trip, a requested local tool whose
owning plugin is mapped to `False` for the event platform is skipped:
its handler is not invoked and it contributes no tool entry; a tool
whose plugin has no entry in the platform map is executed. -/
theorem c4_disabled_plugin_tool_skipped (env : ToolEnv)
    (names args ids : List String) (i : Nat)
    (n a tid : String) (ft : FuncToolM) (md : StarMetadataM)
    (hzip : (names.zip (args.zip ids))[i]? = some (n, a, tid))
    (hft : env.get_func n = some ft)
    (hmcp : (ft.origin == "mcp") = false)
    (hmd : dictGet env.star_map ft.handler_module_path = some md) :
    (dictGet md.supported_platforms env.platform_id = some false →
      (handleFunctionToolsSteps env names args ids)[i]? = some ([], false))
    ∧ (dictGet md.supported_platforms env.platform_id = none →
      ((handleFunctionToolsSteps env names args ids)[i]?).map (·.2) = some true) := by
  have hstep : (handleFunctionToolsSteps env names args ids)[i]?
      = some (toolCallStep env n a tid) := by
    rw [handleFunctionToolsSteps, List.getElem?_map, hzip]
    rfl
  constructor
  · intro hdis
    rw [hstep, toolCallStep, hft]
    simp only [hmcp, Bool.false_eq_true, if_false, platformDisabled, hmd, hdis]
    rfl
  · intro habs
    rw [hstep, toolCallStep, hft]
    simp only [hmcp, Bool.false_eq_true, if_false, platformDisabled, hmd, habs]
    rfl

/-- Witness for C4: on platform `qq`, tool `a` (plugin disabled there)
contributes nothing and is not invoked, while tool `b` (plugin absent
from the platform map) is executed. -/
theorem c4_disabled_plugin_tool_skipped_witness :
    (handleFunctionToolsSteps sampleToolEnv ["a", "b"] ["x", "y"] ["t1", "t2"])[0]?
      = some ([], false)
    ∧ ((handleFunctionToolsSteps sampleToolEnv ["a", "b"] ["x", "y"]
        ["t1", "t2"])[1]?).map (·.2) = some true := by
  constructor
  · exact (c4_disabled_plugin_tool_skipped sampleToolEnv ["a", "b"] ["x", "y"]
      ["t1", "t2"] 0 "a" "x" "t1" sampleToolA samplePluginA rfl rfl rfl rfl).1 rfl
  · exact (c4_disabled_plugin_tool_skipped sampleToolEnv ["a", "b"] ["x", "y"]
      ["t1", "t2"] 1 "b" "y" "t2" sampleToolB samplePluginB rfl rfl rfl rfl).2 rfl

/-- Claim C5.  A tool call whose handler raises contributes the
partial outputs it produced followed by a `"error: <msg>"` entry for
its call id; every other call of the round-trip is processed exactly
as it would be on its own, and the collected entries are returned for
the next LLM loop iteration. -/
theorem c5_tool_error_entry_and_continuation (env : ToolEnv)
    (names args ids : List String) (i : Nat)
    (n a tid : String) (ft : FuncToolM) (m ct : String)
    (hzip : (names.zip (args.zip ids))[i]? = some (n, a, tid))
    (hft : env.get_func n = some ft)
    (hmcp : (ft.origin == "mcp") = false)
    (hskip : platformDisabled env ft = false)
    (herr : (env.run_handler ft.name a).error = some m) :
    (handleFunctionToolsSteps env names args ids)[i]?
      = some ((env.run_handler ft.name a).outputs.filterMap
            (fun o => o.map (ToolEntry.mk tid)) ++ [⟨tid, "error: " ++ m⟩], true)
    ∧ (∀ j : Nat, (handleFunctionToolsSteps env names args ids)[j]?
        = ((names.zip (args.zip ids))[j]?).map
            (fun t => toolCallStep env t.1 t.2.1 t.2.2))
    ∧ handleFunctionTools env names args ids ct
        = .newRequest (((handleFunctionToolsSteps env names args ids).map
            (·.1)).flatten) := by
  have hstep : (handleFunctionToolsSteps env names args ids)[i]?
      = some (toolCallStep env n a tid) := by
    rw [handleFunctionToolsSteps, List.getElem?_map, hzip]
    rfl
  have hval : toolCallStep env n a tid
      = ((env.run_handler ft.name a).outputs.filterMap
            (fun o => o.map (ToolEntry.mk tid)) ++ [⟨tid, "error: " ++ m⟩], true) := by
    rw [toolCallStep, hft]
    simp only [hmcp, Bool.false_eq_true, if_false, hskip, herr]
  refine ⟨by rw [hstep, hval], ?_, ?_⟩
  · intro j
    rw [handleFunctionToolsSteps, List.getElem?_map]
  · rw [handleFunctionTools]
    have hmem0 : (toolCallStep env n a tid)
        ∈ handleFunctionToolsSteps env names args ids := by
      have hlt : i < (handleFunctionToolsSteps env names args ids).length :=
        (List.getElem?_eq_some.mp hstep).1
      have := List.getElem_mem hlt
      rwa [List.getElem_eq_iff.mpr hstep] at this
    have hmem : ((env.run_handler ft.name a).outputs.filterMap
          (fun o => o.map (ToolEntry.mk tid)) ++ [⟨tid, "error: " ++ m⟩] : List ToolEntry)
        ∈ (handleFunctionToolsSteps env names args ids).map (·.1) := by
      have h2 := List.mem_map_of_mem (·.1) hmem0
      rw [hval] at h2
      exact h2
    have hne : ¬ (((handleFunctionToolsSteps env names args ids).map
        (·.1)).flatten = []) := by
      intro hnil
      rw [List.flatten_eq_nil_iff] at hnil
      have := hnil _ hmem
      simp at this
    rw [if_pos (by simpa using hne)]

/-- Witness for C5: tool `c` raises `boom`; the round-trip still
returns a new request carrying the error entry. -/
theorem c5_tool_error_entry_and_continuation_witness :
    (handleFunctionToolsSteps sampleToolEnv ["c"] ["z"] ["t9"])[0]?
      = some ([⟨"t9", "error: boom"⟩], true)
    ∧ handleFunctionTools sampleToolEnv ["c"] ["z"] ["t9"] ""
      = .newRequest [⟨"t9", "error: boom"⟩] := by
  have h := c5_tool_error_entry_and_continuation sampleToolEnv ["c"] ["z"] ["t9"]
    0 "c" "z" "t9" sampleToolC "boom" "" rfl rfl rfl rfl rfl
  refine ⟨?_, ?_⟩
  · rw [h.1]
    rfl
  · rw [h.2.2]
    rfl

/-- Claim C6.  An event result whose chain is a non-empty list in
which every component fails its non-empty predicate leads to no send,
a cleared result, and stopped propagation. -/
theorem c6_all_empty_chain_dropped (cfg : RespondConfig) (env : RespondEnv)
    (r : MessageEventResultM)
    (hrct : r.result_content_type = .generalResult
      ∨ r.result_content_type = .llmResult)
    (hne : r.chain ≠ [])
    (hempty : ∀ c ∈ r.chain, componentNonEmpty c = false) :
    respondProcess cfg env (some r) = ⟨[], false, true, true⟩ := by
  have h1 : (r.result_content_type == ResultContentTypeM.streamingFinish) = false := by
    rcases hrct with h | h <;> simp [h]
  have h2 : (r.result_content_type == ResultContentTypeM.streamingResult) = false := by
    rcases hrct with h | h <;> simp [h]
  have hmap : r.chain.map (pathMapComp env) = r.chain :=
    List.map_congr_left (fun c hc => pathMapComp_of_empty env c (hempty c hc)) |>.trans
      r.chain.map_id
  have hlen : r.chain.length > 0 := List.length_pos.mpr hne
  have hch1 : (if !cfg.path_mapping.isEmpty then r.chain.map (pathMapComp env)
      else r.chain) = r.chain := by
    split <;> simp [hmap]
  have hemp : isEmptyMessageChain r.chain = true := by
    rw [isEmptyMessageChain, if_neg (by simp [hne])]
    simp only [Bool.not_eq_true']
    exact List.any_eq_false.mpr (fun c hc => by simp [hempty c hc])
  rw [respondProcess]
  simp only [h1, h2, Bool.false_eq_true, if_false, hch1, hemp, if_pos hlen, if_true]

/-- Witness for C6: a chain holding one blank text component is
dropped: no send, result cleared, propagation stopped. -/
theorem c6_all_empty_chain_dropped_witness :
    respondProcess {} plainRespondEnv
      (some { chain := [.plain ""], result_content_type := .generalResult })
      = ⟨[], false, true, true⟩ := by
  refine c6_all_empty_chain_dropped {} plainRespondEnv _ (Or.inl rfl) (by simp) ?_
  intro c hc
  rw [List.mem_singleton] at hc
  subst hc
  rfl

/-- Claim C7, counterexample.  With segmented reply enabled but the
mention/quote decoration settings off (their defaults), the chain
`[at, reply, plain]` produces three sends, not the one send per
non-decoration component the claim promises, and no send carries the
at-mention and reply-quote as a prefix. -/
theorem c7_segmented_reply_counterexample :
    (respondProcess segOnlyCfg plainRespondEnv
        (some { chain := atReplyTextChain, result_content_type := .llmResult })).sends
      = [[.at "10001" ""], [.reply "5" (some "9")], [.plain "hi"]]
    ∧ ((respondProcess segOnlyCfg plainRespondEnv
        (some { chain := atReplyTextChain, result_content_type := .llmResult
          })).sends).length ≠ 1 := by
  have key : (respondProcess segOnlyCfg plainRespondEnv
      (some { chain := atReplyTextChain, result_content_type := .llmResult })).sends
      = [[.at "10001" ""], [.reply "5" (some "9")], [.plain "hi"]] := rfl
  refine ⟨key, ?_⟩
  rw [key]
  simp

/-- Claim C7 as amended.  With segmented reply enabled, the
reply-with-mention and reply-with-quote settings on, the only-LLM
gating satisfied and the at-mention passing its non-empty predicate:
a chain of an at-mention, a reply-quote and then N non-decoration
components produces, when no send raises, exactly N messages, each
the extracted at-mention and reply-quote followed by the corresponding
remaining component (path-mapped when mapping rules are configured). -/
theorem c7_segmented_reply_amended (cfg : RespondConfig) (env : RespondEnv)
    (qq nm rid : String) (sid : Option String) (rest : List Component)
    (rct : ResultContentTypeM)
    (hseg : cfg.enable_seg = true)
    (hrct : rct = .generalResult ∨ rct = .llmResult)
    (hgate : cfg.only_llm_result = true → rct = .llmResult)
    (hmention : cfg.reply_with_mention = true)
    (hquote : cfg.reply_with_quote = true)
    (hrest : ∀ c ∈ rest, isAt c = false ∧ isReply c = false)
    (hat : componentNonEmpty (.at qq nm) = true)
    (hsend : ∀ n, env.sendFails n = false) :
    (respondProcess cfg env (some
        { chain := .at qq nm :: .reply rid sid :: rest,
          result_content_type := rct })).sends
      = (if !cfg.path_mapping.isEmpty then rest.map (pathMapComp env) else rest).map
          (fun c => [.at qq nm, .reply rid sid, c])
    ∧ ((respondProcess cfg env (some
        { chain := .at qq nm :: .reply rid sid :: rest,
          result_content_type := rct })).sends).length = rest.length := by
  have _ := hrest
  have h1 : (rct == ResultContentTypeM.streamingFinish) = false := by
    rcases hrct with h | h <;> simp [h]
  have h2 : (rct == ResultContentTypeM.streamingResult) = false := by
    rcases hrct with h | h <;> simp [h]
  have hch1 : (if !cfg.path_mapping.isEmpty
        then (Component.at qq nm :: Component.reply rid sid :: rest).map
          (pathMapComp env)
        else Component.at qq nm :: Component.reply rid sid :: rest)
      = Component.at qq nm :: Component.reply rid sid ::
          (if !cfg.path_mapping.isEmpty then rest.map (pathMapComp env) else rest) := by
    split <;> simp [pathMapComp]
  have hemp : isEmptyMessageChain (Component.at qq nm :: Component.reply rid sid ::
      (if !cfg.path_mapping.isEmpty then rest.map (pathMapComp env) else rest))
      = false := by
    simp [isEmptyMessageChain, hat]
  have hcond : (cfg.enable_seg
      && ((cfg.only_llm_result && (rct == ResultContentTypeM.llmResult))
          || !cfg.only_llm_result)) = true := by
    rw [hseg]
    cases ho : cfg.only_llm_result
    · simp
    · simp [hgate ho]
  have hextract : extractDecorations cfg (Component.at qq nm ::
        Component.reply rid sid ::
        (if !cfg.path_mapping.isEmpty then rest.map (pathMapComp env) else rest))
      = ([Component.at qq nm, Component.reply rid sid],
         (if !cfg.path_mapping.isEmpty then rest.map (pathMapComp env) else rest)) := by
    rw [extractDecorations]
    simp [hmention, hquote, List.find?, isAt, isReply, removeFirst]
  have hsends : (respondProcess cfg env (some
      { chain := .at qq nm :: .reply rid sid :: rest,
        result_content_type := rct })).sends
      = (if !cfg.path_mapping.isEmpty then rest.map (pathMapComp env) else rest).map
          (fun c => [.at qq nm, .reply rid sid, c]) := by
    rw [respondProcess]
    simp only [h1, h2, Bool.false_eq_true, if_false]
    rw [if_pos (by simp)]
    simp only [hch1, hemp, Bool.false_eq_true, if_false, hcond, if_true, hextract]
    rw [afterSendBlock_sends, segmentedSends_all_ok env _ _ 0 hsend]
    simp
  refine ⟨hsends, ?_⟩
  rw [hsends]
  simp only [List.length_map]
  split <;> simp

/-- Witness for the amended C7: mention and quote decoration on, two
plain components after the decorations: exactly two sends, each
decorated. -/
theorem c7_segmented_reply_amended_witness :
    (respondProcess segDecorCfg plainRespondEnv
        (some { chain := atReplyTwoTextChain, result_content_type := .llmResult
          })).sends
      = [[.at "10001" "", .reply "5" (some "9"), .plain "hi"],
         [.at "10001" "", .reply "5" (some "9"), .plain "yo"]] := by
  have h := c7_segmented_reply_amended segDecorCfg plainRespondEnv
    "10001" "" "5" (some "9") [.plain "hi", .plain "yo"] .llmResult
    rfl (Or.inr rfl) (fun _ => rfl) rfl rfl
    (by
      intro c hc
      simp only [List.mem_cons, List.not_mem_nil, or_false] at hc
      rcases hc with h | h <;> subst h <;> exact ⟨rfl, rfl⟩)
    rfl (fun _ => rfl)
  have hchain : atReplyTwoTextChain
      = Component.at "10001" "" :: Component.reply "5" (some "9")
          :: [Component.plain "hi", Component.plain "yo"] := rfl
  rw [hchain, h.1]
  rfl

/-- Claim C8.  Any exception escaping the body of the `requesting`
loop (provider call, response-is-None check, tool round-trip plumbing,
or the history write) is caught by the stage: the event result becomes
the plain-text failure chain naming the exception type and message,
and nothing propagates (the embedding of `requesting` is total). -/
theorem c8_request_loop_exception_caught (env : RequestingEnv) (req : ReqM)
    (res : Option MessageEventResultM) (fuel : Nat) (e : PyError)
    (hbody : requestingBody env req res fuel = .error e) :
    requesting env req res fuel =
      { result := some (plainResult ("AstrBot 请求失败。\n错误类型: "
          ++ e.type_name ++ "\n错误信息: " ++ e.msg)),
        savedHistory := none } := by
  rw [requesting, hbody]

/-- Witness for C8: a provider call raising `ValueError boom` is
turned into the failure chain; no history is written. -/
theorem c8_request_loop_exception_caught_witness :
    requestingBody raisingReqEnv convReq none 1 = .error ⟨"ValueError", "boom"⟩
    ∧ requesting raisingReqEnv convReq none 1 =
      { result := some (plainResult
          "AstrBot 请求失败。\n错误类型: ValueError\n错误信息: boom"),
        savedHistory := none } := by
  refine ⟨rfl, ?_⟩
  have h := c8_request_loop_exception_caught raisingReqEnv convReq none 1
    ⟨"ValueError", "boom"⟩ rfl
  rw [h]
  rfl

/-- Claim C9.  `delete_conversation` ignores its `conversation_id`
argument (the result is the same for any two arguments); when the
session has a current dialogue, that dialogue is deleted from the
database and the mapping; when it has none, nothing is deleted and
both the database and the session map are left unchanged. -/
theorem c9_delete_conversation_ignores_argument
    (sc : List (String × String)) (umo : String) (cid cid2 : Option String) :
    delete_conversation sc umo cid = delete_conversation sc umo cid2
    ∧ (∀ c, dictGet sc umo = some c →
        delete_conversation sc umo cid =
          ⟨dictDel sc umo, [.deleteConversation umo c], true⟩)
    ∧ (dictGet sc umo = none →
        delete_conversation sc umo cid = ⟨sc, [], false⟩) := by
  refine ⟨rfl, ?_, ?_⟩
  · intro c hc
    simp [delete_conversation, hc]
  · intro hn
    simp [delete_conversation, hn]

/-- Witness for C9: with current dialogue `c1` for session `s1`, any
argument deletes `c1`; for the unknown session `s2` nothing happens. -/
theorem c9_delete_conversation_ignores_argument_witness :
    delete_conversation [("s1", "c1")] "s1" (some "zzz")
      = ⟨[], [.deleteConversation "s1" "c1"], true⟩
    ∧ delete_conversation [("s1", "c1")] "s2" none
      = ⟨[("s1", "c1")], [], false⟩ := by
  constructor
  · have h := (c9_delete_conversation_ignores_argument [("s1", "c1")] "s1"
      (some "zzz") none).2.1 "c1" rfl
    rw [h]
    rfl
  · exact (c9_delete_conversation_ignores_argument [("s1", "c1")] "s2"
      none none).2.2 rfl

/-- Claim C10.  Conversation history is persisted only when the final
non-chunk response has role `assistant`: `_save_to_history` writes
nothing for any other role, and a `requesting` run that raises or
whose final response has another role (for example `err`) leaves the
stored history untouched. -/
theorem c10_history_saved_only_on_assistant (env : RequestingEnv) (req : ReqM)
    (res : Option MessageEventResultM) (fuel : Nat) :
    (∀ req2 final, (final.role == "assistant") = false →
        saveToHistoryE env req2 final = .ok none)
    ∧ (∀ e, requestingBody env req res fuel = .error e →
        (requesting env req res fuel).savedHistory = none)
    ∧ (∀ final r req2,
        requestingLoop env req res 0 fuel = .ok (some (.finished final r req2)) →
        (final.role == "assistant") = false →
        (requesting env req res fuel).savedHistory = none) := by
  refine ⟨fun req2 final hrole => saveToHistoryE_not_assistant env req2 final hrole,
    ?_, ?_⟩
  · intro e he
    rw [requesting, he]
  · intro final r req2 hloop hrole
    have hs := saveToHistoryE_not_assistant env req2 final hrole
    simp [requesting, requestingBody, hloop, hs]

/-- Witness for C10: a provider returning a `role="err"` final
response, with a conversation attached, writes no history. -/
theorem c10_history_saved_only_on_assistant_witness :
    requestingLoop errRespEnv convReq none 0 1
      = .ok (some (.finished errResp
          (some (plainResult "AstrBot 请求失败。\n错误信息: bad")) convReq))
    ∧ (requesting errRespEnv convReq none 1).savedHistory = none := by
  refine ⟨rfl, ?_⟩
  exact (c10_history_saved_only_on_assistant errRespEnv convReq none 1).2.2
    errResp (some (plainResult "AstrBot 请求失败。\n错误信息: bad")) convReq rfl rfl

end AstrBot
